import Mathlib

/-
Shallow embedding of the claude-nvidia-proxy core: the bidirectional schema
converter (internal/converter, given here as src/unnamed/part_000) and the
streaming re-framing state machine (internal/server/server.go, proxyStream).
Go strings are Lean String values, Go int is Int, Go pointers that may be nil
are Option, Go json.RawMessage payloads that the code probes at runtime are
modelled by small sum types carrying the raw bytes together with the outcome
of the probe the code performs, and Go strings.TrimSpace is trimSpace below.
-/

namespace ClaudeNvidiaProxy

/-- Embeds converter.MapFinishReason (src/unnamed/part_000, lines 328 to 344):
a switch on the upstream finish-reason string whose default branch tests for
the empty string and returns end_turn in both arms, exactly as the Go source
does. -/
def MapFinishReason (finish : String) : String :=
  if finish = "stop" then "end_turn"
  else if finish = "length" then "max_tokens"
  else if finish = "tool_calls" then "tool_use"
  else if finish = "content_filter" then "stop_sequence"
  else if finish = "" then "end_turn"
  else "end_turn"

/-- Embeds Go strings.TrimSpace: leading and trailing whitespace removed,
computed on the character list so that it reduces inside the kernel. -/
def trimSpace (s : String) : String :=
  ⟨((s.data.dropWhile Char.isWhitespace).reverse.dropWhile Char.isWhitespace).reverse⟩

/-- A Go json.RawMessage payload, modelled by its raw bytes together with the
result of the one probe the converter performs on it: whether it decodes as a
JSON string, and if so which string. Empty bytes stand for an absent field. -/
structure RawJson where
  bytes : String
  asString : Option String
deriving DecidableEq

/-- Embeds types.AnthropicImageSource. -/
structure AnthropicImageSource where
  type : String
  mediaType : String
  data : String
  url : String
deriving DecidableEq

/-- Embeds types.AnthropicContentBlock; unused fields of a given block kind
default to empty values, as absent JSON fields do in the Go struct. The
tool_use input field is kept as its raw bytes, which is all the request
converter reads from it. -/
structure AnthropicContentBlock where
  type : String
  text : String := ""
  source : Option AnthropicImageSource := none
  id : String := ""
  name : String := ""
  input : String := ""
  toolUseID : String := ""
  content : RawJson := ⟨"", none⟩
deriving DecidableEq

/-- One character of the standard base64 alphabet used by Go
encoding/base64 StdEncoding. -/
def isBase64Char (c : Char) : Bool :=
  (Nat.ble 65 c.toNat && Nat.ble c.toNat 90) ||
  (Nat.ble 97 c.toNat && Nat.ble c.toNat 122) ||
  (Nat.ble 48 c.toNat && Nat.ble c.toNat 57) ||
  c == '+' || c == '/'

/-- Embeds the success condition of Go base64.StdEncoding.DecodeString:
carriage returns and newlines are ignored, the remaining length must be a
multiple of four, at most two padding characters may appear and only at the
very end, and every other character must belong to the standard alphabet. -/
def isValidBase64 (s : String) : Bool :=
  let cs := s.data.filter (fun c => !(c == '\r') && !(c == '\n'))
  let n := cs.length
  if n % 4 == 0 then
    let p := (cs.reverse.takeWhile (fun c => c == '=')).length
    Nat.ble p 2 && (cs.take (n - p)).all isBase64Char
  else
    false

/-- One typed part of an outbound OpenAI-style user message. -/
inductive OutPart where
  | text (t : String)
  | imageUrl (url : String)
deriving DecidableEq

/-- Content of an outbound message: either a plain string or a sequence of
typed parts, mirroring the map values the Go converter builds. -/
inductive OutContent where
  | str (s : String)
  | parts (ps : List OutPart)
deriving DecidableEq

/-- An outbound assistant tool-call entry: id, function name, and the
arguments serialized as text. -/
structure OutToolCall where
  id : String
  name : String
  arguments : String
deriving DecidableEq

/-- An outbound OpenAI-style message, one constructor per map shape the Go
converter emits: a generic role/content message, a tool-role message carrying
a tool_call_id, or an assistant message with optional text content and
tool calls. -/
inductive OutMessage where
  | basic (role : String) (content : OutContent)
  | toolMsg (toolCallId : String) (content : String)
  | assistantMsg (content : Option String) (toolCalls : List OutToolCall)
deriving DecidableEq

/-- Embeds the tool_result content coercion inside
convertAnthropicUserBlocksToOpenAIMessages (src/unnamed/part_000, lines 132
to 139): empty raw bytes give the empty string, bytes that decode as a JSON
string give the decoded value, anything else passes the raw bytes through. -/
def toolResultContentStr (c : RawJson) : String :=
  if c.bytes = "" then ""
  else
    match c.asString with
    | some s => s
    | none => c.bytes

/-- Embeds the first loop of convertAnthropicUserBlocksToOpenAIMessages
(lines 128 to 146): one tool-role message per tool_result block whose
tool_use_id is non-blank, in block order. -/
def userToolResultMsgs : List AnthropicContentBlock → List OutMessage
  | [] => []
  | blk :: rest =>
    if blk.type = "tool_result" ∧ trimSpace blk.toolUseID ≠ "" then
      OutMessage.toolMsg blk.toolUseID (toolResultContentStr blk.content) :: userToolResultMsgs rest
    else
      userToolResultMsgs rest

/-- Embeds the url computation of the image branch (lines 159 to 173): a
base64 source with a media type, data, and valid base64 yields a data URI, a
url source passes its url through, anything else yields the empty string,
which the caller treats as no part. -/
def imageUrlOf (src : AnthropicImageSource) : String :=
  if src.type = "base64" then
    if src.mediaType = "" ∨ src.data = "" then ""
    else if isValidBase64 src.data then "data:" ++ src.mediaType ++ ";base64," ++ src.data
    else ""
  else if src.type = "url" then src.url
  else ""

/-- Embeds one iteration of the second loop of
convertAnthropicUserBlocksToOpenAIMessages (lines 149 to 183): the typed part
a block contributes, if any. -/
def partOfBlock (blk : AnthropicContentBlock) : Option OutPart :=
  if blk.type = "text" then
    if blk.text ≠ "" then some (OutPart.text blk.text) else none
  else if blk.type = "image" then
    match blk.source with
    | none => none
    | some src =>
      let url := imageUrlOf src
      if url ≠ "" then some (OutPart.imageUrl url) else none
  else none

/-- Embeds convertAnthropicUserBlocksToOpenAIMessages (lines 125 to 203):
tool-role messages first, then exactly one user message whose content is the
empty string for no parts, the bare text for a single text part, and the part
sequence otherwise. -/
def convertAnthropicUserBlocksToOpenAIMessages (blocks : List AnthropicContentBlock) : List OutMessage :=
  let toolMsgs := userToolResultMsgs blocks
  let parts := blocks.filterMap partOfBlock
  match parts with
  | [] => toolMsgs ++ [OutMessage.basic "user" (OutContent.str "")]
  | [OutPart.text t] => toolMsgs ++ [OutMessage.basic "user" (OutContent.str t)]
  | ps => toolMsgs ++ [OutMessage.basic "user" (OutContent.parts ps)]

/-- Embeds converter.joinTextBlocks (lines 112 to 123): newline-join of the
non-empty text fields of text blocks. -/
def joinTextBlocks (blocks : List AnthropicContentBlock) : String :=
  blocks.foldl
    (fun acc blk =>
      if blk.type = "text" ∧ blk.text ≠ "" then
        if acc.length > 0 then acc ++ "\n" ++ blk.text else blk.text
      else acc)
    ""

/-- Embeds convertAnthropicAssistantBlocksToOpenAIMessage (lines 205 to 239):
joined text (null when empty) plus one tool-call entry per tool_use block
with non-blank id and name, arguments defaulting to an empty JSON object. -/
def convertAnthropicAssistantBlocksToOpenAIMessage (blocks : List AnthropicContentBlock) : OutMessage :=
  let text := joinTextBlocks blocks
  let toolCalls := blocks.filterMap (fun blk =>
    if blk.type = "tool_use" ∧ trimSpace blk.id ≠ "" ∧ trimSpace blk.name ≠ "" then
      some ⟨blk.id, blk.name, if blk.input ≠ "" then blk.input else "\x7b\x7d"⟩
    else none)
  OutMessage.assistantMsg (if text ≠ "" then some text else none) toolCalls

/-- A tool-choice value, covering the shapes convertToolChoice (lines 241 to
264) distinguishes: a bare string, a JSON object with a type field and
possibly a name field, the outbound named-function directive, or any other
value, carried as an observationally irrelevant tag and passed through. -/
inductive ToolChoice where
  | strVal (s : String)
  | typeMap (typ : String) (name : String)
  | functionDirective (name : String)
  | rawVal (tag : String)
deriving DecidableEq

/-- Embeds converter.convertToolChoice (lines 241 to 264). -/
def convertToolChoice : ToolChoice → ToolChoice
  | ToolChoice.typeMap typ name =>
    if typ = "auto" ∨ typ = "none" ∨ typ = "required" then ToolChoice.strVal typ
    else if typ = "tool" then
      if name = "" then ToolChoice.strVal "auto" else ToolChoice.functionDirective name
    else ToolChoice.typeMap typ name
  | v => v

/-- The content field of an inbound message, a json.RawMessage the converter
probes in two stages (lines 28 to 40): it decodes as a JSON string, or as a
sequence of content blocks, or as neither. -/
inductive MsgContent where
  | str (s : String)
  | blocks (bs : List AnthropicContentBlock)
  | malformed (raw : String)
deriving DecidableEq

/-- Embeds types.AnthropicMsg. -/
structure AnthropicMsg where
  role : String
  content : MsgContent
deriving DecidableEq

/-- The system field of an inbound request, a json.RawMessage that
extractSystemText (lines 97 to 110) probes: absent, a JSON string, a block
sequence, or neither. -/
inductive SystemField where
  | absent
  | str (s : String)
  | blocks (bs : List AnthropicContentBlock)
  | malformed
deriving DecidableEq

/-- The input_schema field of a tool declaration: absent, or present and
parsing to a value carried here as its rendering, or present but
unparseable. -/
inductive SchemaField where
  | absent
  | parsed (v : String)
  | unparseable
deriving DecidableEq

/-- Embeds types.AnthropicTool. -/
structure AnthropicTool where
  name : String
  description : String := ""
  inputSchema : SchemaField := SchemaField.absent
deriving DecidableEq

/-- Embeds types.AnthropicMessageRequest; the HandleMessages handler has
already validated the model and defaulted max_tokens before the converter
runs, but the converter itself reads these fields unchanged. -/
structure AnthropicMessageRequest where
  model : String
  maxTokens : Int := 0
  temperature : Option Float := none
  stream : Bool := false
  system : SystemField := SystemField.absent
  messages : List AnthropicMsg := []
  tools : List AnthropicTool := []
  toolChoice : Option ToolChoice := none

/-- An outbound tool declaration reshaped into the function-calling envelope
(lines 72 to 88); parameters is the parsed input schema, or none when the
schema was absent or failed to parse, matching the nil the Go code leaves. -/
structure OutTool where
  name : String
  description : String
  parameters : Option String
deriving DecidableEq

/-- Embeds types.OpenAIChatCompletionRequest as far as the converter fills
it; an empty tools list stands for the omitted field. -/
structure OpenAIChatCompletionRequest where
  model : String
  messages : List OutMessage
  maxTokens : Int
  temperature : Option Float
  stream : Bool
  tools : List OutTool
  toolChoice : Option ToolChoice

/-- Embeds converter.extractSystemText (lines 97 to 110). -/
def extractSystemText : SystemField → String
  | SystemField.absent => ""
  | SystemField.str s => s
  | SystemField.blocks bs => joinTextBlocks bs
  | SystemField.malformed => ""

/-- Embeds the per-message loop of ConvertAnthropicToOpenAI (lines 22 to 62):
blank roles are skipped, string content passes through under the same role,
block content branches on the role, and content that parses neither way
fails the whole conversion. -/
def convertMessages : List AnthropicMsg → Except String (List OutMessage)
  | [] => Except.ok []
  | m :: rest =>
    let role := trimSpace m.role
    if role = "" then convertMessages rest
    else
      match m.content with
      | MsgContent.str s =>
        match convertMessages rest with
        | Except.error e => Except.error e
        | Except.ok tail => Except.ok (OutMessage.basic role (OutContent.str s) :: tail)
      | MsgContent.blocks bs =>
        match convertMessages rest with
        | Except.error e => Except.error e
        | Except.ok tail =>
          if role = "user" then
            Except.ok (convertAnthropicUserBlocksToOpenAIMessages bs ++ tail)
          else if role = "assistant" then
            Except.ok (convertAnthropicAssistantBlocksToOpenAIMessage bs :: tail)
          else
            Except.ok (OutMessage.basic role (OutContent.str (joinTextBlocks bs)) :: tail)
      | MsgContent.malformed _ =>
        Except.error ("invalid message content for role " ++ role)

/-- The parameters value an outbound tool entry receives (lines 74 to 78):
the parse result when the schema is present and parses, nil otherwise. -/
def schemaParams : SchemaField → Option String
  | SchemaField.absent => none
  | SchemaField.parsed v => some v
  | SchemaField.unparseable => none

/-- Embeds converter.ConvertAnthropicToOpenAI (lines 12 to 95). -/
def ConvertAnthropicToOpenAI (req : AnthropicMessageRequest) : Except String OpenAIChatCompletionRequest :=
  let sys := trimSpace (extractSystemText req.system)
  let sysMsgs := if sys ≠ "" then [OutMessage.basic "system" (OutContent.str sys)] else []
  match convertMessages req.messages with
  | Except.error e => Except.error e
  | Except.ok msgs =>
    Except.ok
      { model := req.model
        messages := sysMsgs ++ msgs
        maxTokens := req.maxTokens
        temperature := req.temperature
        stream := req.stream
        tools := req.tools.map (fun t => ⟨t.name, t.description, schemaParams t.inputSchema⟩)
        toolChoice :=
          match req.toolChoice with
          | some tc => some (convertToolChoice tc)
          | none => none }

/-- A JSON object, modelled shallowly as a field list with rendered values;
the response converter never inspects the values it stores here. -/
abbrev JsonObj : Type := List (String × String)

/-- The arguments value of an upstream tool call, a Go interface value the
response converter switches on (lines 282 to 289): a JSON-encoded string
carried with the outcome of unmarshalling it into an object, an
already-structured object, or any other value carried as its fmt rendering. -/
inductive OpenAIArgs where
  | str (s : String) (parsed : Option JsonObj)
  | obj (o : JsonObj)
  | other (rendered : String)
deriving DecidableEq

/-- Embeds the tool-call entries of types.OpenAIChatCompletionResponse. -/
structure OpenAIRespToolCall where
  id : String
  name : String
  arguments : OpenAIArgs
deriving DecidableEq

/-- Embeds the message of a response choice: optional text content plus tool
calls. -/
structure OpenAIRespMessage where
  content : Option String
  toolCalls : List OpenAIRespToolCall
deriving DecidableEq

/-- Embeds one choice of types.OpenAIChatCompletionResponse. -/
structure OpenAIChoice where
  message : OpenAIRespMessage
  finishReason : String
deriving DecidableEq

/-- Embeds the nested prompt_tokens_details of the usage object. -/
structure PromptTokensDetails where
  cachedTokens : Int
deriving DecidableEq

/-- Embeds the usage object of types.OpenAIChatCompletionResponse. -/
structure OpenAIUsage where
  promptTokens : Int
  completionTokens : Int
  promptTokensDetails : Option PromptTokensDetails
deriving DecidableEq

/-- Embeds types.OpenAIChatCompletionResponse. -/
structure OpenAIChatCompletionResponse where
  id : String
  model : String
  choices : List OpenAIChoice
  usage : Option OpenAIUsage
deriving DecidableEq

/-- An inbound-format output content block: text, or a tool_use block with
materialized input. -/
inductive AnthropicOutBlock where
  | text (t : String)
  | toolUse (id : String) (name : String) (input : JsonObj)
deriving DecidableEq

/-- The usage object of the inbound-format response. -/
structure AnthropicUsage where
  inputTokens : Int
  outputTokens : Int
  cacheReadInputTokens : Int
deriving DecidableEq

/-- Embeds types.AnthropicMessageResponse. -/
structure AnthropicMessageResponse where
  id : String
  type : String
  role : String
  model : String
  content : List AnthropicOutBlock
  stopReason : String
  stopSequence : Option String
  usage : AnthropicUsage
deriving DecidableEq

/-- Embeds the arguments switch of ConvertOpenAIToAnthropic (lines 281 to
289): a string that unmarshals gives the parsed object, a failed unmarshal
leaves the freshly made empty object, a structured object passes through,
and any other shape becomes a single text field holding the rendering. -/
def argsToInput : OpenAIArgs → JsonObj
  | OpenAIArgs.str _ parsed =>
    match parsed with
    | some o => o
    | none => []
  | OpenAIArgs.obj o => o
  | OpenAIArgs.other rendered => [("text", rendered)]

/-- Embeds converter.ConvertOpenAIToAnthropic (lines 266 to 326). -/
def ConvertOpenAIToAnthropic (resp : OpenAIChatCompletionResponse) : AnthropicMessageResponse :=
  let pair : List AnthropicOutBlock × String :=
    match resp.choices with
    | [] => ([], "")
    | ch :: _ =>
      let textBlocks :=
        match ch.message.content with
        | some t => if t ≠ "" then [AnthropicOutBlock.text t] else []
        | none => []
      let toolBlocks := ch.message.toolCalls.map
        (fun tc => AnthropicOutBlock.toolUse tc.id tc.name (argsToInput tc.arguments))
      (textBlocks ++ toolBlocks, ch.finishReason)
  let usageTriple : Int × Int × Int :=
    match resp.usage with
    | none => (0, 0, 0)
    | some u =>
      let cacheRead :=
        match u.promptTokensDetails with
        | some d => d.cachedTokens
        | none => 0
      (u.promptTokens - cacheRead, u.completionTokens, cacheRead)
  { id := resp.id
    type := "message"
    role := "assistant"
    model := resp.model
    content := pair.1
    stopReason := MapFinishReason pair.2
    stopSequence := none
    usage := ⟨usageTriple.1, usageTriple.2.1, usageTriple.2.2⟩ }

/-- Embeds one tool-call fragment of types.OpenAIChatCompletionChunk, with
the function fields flattened: upstream index, optional id and function name
carried as possibly empty strings, and the partial arguments text. -/
structure ToolCallFragment where
  index : Int
  id : String
  name : String
  arguments : String
deriving DecidableEq

/-- Embeds the delta of a streaming chunk choice. -/
structure StreamDelta where
  content : Option String
  toolCalls : List ToolCallFragment
deriving DecidableEq

/-- Embeds one choice of a streaming chunk. -/
structure StreamChoice where
  delta : StreamDelta
  finishReason : Option String
deriving DecidableEq

/-- Embeds types.OpenAIChatCompletionChunk as far as proxyStream reads it. -/
structure StreamChunk where
  choices : List StreamChoice
deriving DecidableEq

/-- One upstream line as proxyStream classifies it (server.go, lines 255 to
281): a data line whose payload decodes as a chunk, the literal termination
sentinel, or noise, covering blank lines, comment lines, non-data lines and
data lines whose payload fails to decode, all of which are skipped. -/
inductive StreamItem where
  | chunk (c : StreamChunk)
  | done
  | noise
deriving DecidableEq

/-- Embeds the per-request toolState record of proxyStream (lines 226 to
230). -/
structure ToolState where
  contentBlockIndex : Int
  id : String
  name : String
deriving DecidableEq

/-- Embeds the mutable bookkeeping of proxyStream (lines 223 to 236): the
tool-index table, the next unassigned content-block index, the currently
open block index with minus one meaning none, its type tag, the
text-block-ever-opened flag, and the last recorded finish reason. -/
structure FramerState where
  toolStates : List (Int × ToolState)
  nextContentBlockIndex : Int
  currentContentBlockIndex : Int
  currentBlockType : String
  hasTextBlock : Bool
  finishReason : String
deriving DecidableEq

/-- The state proxyStream starts each request with. -/
def initialFramerState : FramerState := ⟨[], 0, -1, "", false, ""⟩

/-- The typed events proxyStream writes to the downstream sink, one
constructor per emission site; constant subfields such as the empty seed
text of a text block start and the zeroed usage of a message delta are
omitted. -/
inductive SseEvent where
  | messageStart (messageId : String) (model : String)
  | blockStartText (index : Int)
  | blockStartToolUse (index : Int) (id : String) (name : String)
  | blockDeltaText (index : Int) (text : String)
  | blockDeltaJson (index : Int) (fragment : String)
  | blockStop (index : Int)
  | messageDelta (stopReason : String)
  | messageStop
deriving DecidableEq

/-- Replaces or inserts the entry for a tool index, modelling assignment
into the Go map of pointers. -/
def setToolState : List (Int × ToolState) → Int → ToolState → List (Int × ToolState)
  | [], k, v => [(k, v)]
  | (k0, v0) :: rest, k, v =>
    if k0 = k then (k, v) :: rest else (k0, v0) :: setToolState rest k v

/-- Embeds the closeCurrentBlock closure (server.go, lines 244 to 253). -/
def closeCurrentBlock (s : FramerState) : FramerState × List SseEvent :=
  if s.currentContentBlockIndex ≥ 0 then
    ({ s with currentContentBlockIndex := -1, currentBlockType := "" },
     [SseEvent.blockStop s.currentContentBlockIndex])
  else (s, [])

/-- Embeds one iteration of the tool-call fragment loop (lines 288 to 346).
The Go code stamps fallback ids with time.Now().UnixMilli(); the whole run
is parameterized by one such millisecond value ms. -/
def processToolFragment (ms : Nat) (s : FramerState) (tc : ToolCallFragment) : FramerState × List SseEvent :=
  let toolIndex : Int := if tc.index < 0 then 0 else tc.index
  let tcID :=
    if trimSpace tc.id = "" then "call_" ++ toString ms ++ "_" ++ toString toolIndex
    else trimSpace tc.id
  let tcName :=
    if trimSpace tc.name = "" then "tool_" ++ toString toolIndex
    else trimSpace tc.name
  match s.toolStates.lookup toolIndex with
  | none =>
    let p := closeCurrentBlock s
    let idx := p.1.nextContentBlockIndex
    let st : ToolState := ⟨idx, tcID, tcName⟩
    let s2 :=
      { p.1 with
        nextContentBlockIndex := idx + 1
        toolStates := setToolState p.1.toolStates toolIndex st
        currentContentBlockIndex := idx
        currentBlockType := "tool_use" }
    let deltaEvts :=
      if tc.arguments ≠ "" then [SseEvent.blockDeltaJson st.contentBlockIndex tc.arguments] else []
    (s2, p.2 ++ [SseEvent.blockStartToolUse idx st.id st.name] ++ deltaEvts)
  | some st0 =>
    let st1 : ToolState :=
      { st0 with
        id := if st0.id = "" ∧ tcID ≠ "" then tcID else st0.id
        name := if st0.name = "" ∧ tcName ≠ "" then tcName else st0.name }
    let s2 :=
      { s with
        toolStates := setToolState s.toolStates toolIndex st1
        currentContentBlockIndex := st1.contentBlockIndex
        currentBlockType := "tool_use" }
    let deltaEvts :=
      if tc.arguments ≠ "" then [SseEvent.blockDeltaJson st1.contentBlockIndex tc.arguments] else []
    (s2, deltaEvts)

/-- Folds processToolFragment over the fragments of one delta, in order. -/
def processToolFragments (ms : Nat) : FramerState → List ToolCallFragment → FramerState × List SseEvent
  | s, [] => (s, [])
  | s, tc :: rest =>
    let p := processToolFragment ms s tc
    let q := processToolFragments ms p.1 rest
    (q.1, p.2 ++ q.2)

/-- Embeds the text-delta branch (lines 349 to 379) for a non-empty text
fragment: close a block of a different type, open the text block if it was
never opened, then emit the text delta at whatever index is then current. -/
def processText (s : FramerState) (txt : String) : FramerState × List SseEvent :=
  let p :=
    if s.currentBlockType ≠ "" ∧ s.currentBlockType ≠ "text" then closeCurrentBlock s
    else (s, [])
  let q :=
    if p.1.hasTextBlock then (p.1, ([] : List SseEvent))
    else
      ({ p.1 with
          hasTextBlock := true
          nextContentBlockIndex := p.1.nextContentBlockIndex + 1
          currentContentBlockIndex := p.1.nextContentBlockIndex
          currentBlockType := "text" },
       [SseEvent.blockStartText p.1.nextContentBlockIndex])
  (q.1, p.2 ++ q.2 ++ [SseEvent.blockDeltaText q.1.currentContentBlockIndex txt])

/-- Embeds the body of the read loop for one decoded chunk (lines 280 to
397): a chunk with no choices is skipped, otherwise the first choice's
tool-call fragments, then its text delta, then its finish reason are
handled in that fixed order. -/
def processChunk (ms : Nat) (s : FramerState) (c : StreamChunk) : FramerState × List SseEvent :=
  match c.choices with
  | [] => (s, [])
  | choice :: _ =>
    let p := processToolFragments ms s choice.delta.toolCalls
    let q :=
      match choice.delta.content with
      | some t => if t ≠ "" then processText p.1 t else (p.1, ([] : List SseEvent))
      | none => (p.1, ([] : List SseEvent))
    let r :=
      match choice.finishReason with
      | some fr =>
        ({ q.1 with finishReason := fr }, [SseEvent.messageDelta (MapFinishReason fr)])
      | none => (q.1, ([] : List SseEvent))
    (r.1, p.2 ++ q.2 ++ r.2)

/-- Embeds the read loop (lines 255 to 397): noise lines are skipped, the
termination sentinel stops consumption, and each decoded chunk is
processed. -/
def processItems (ms : Nat) (s : FramerState) : List StreamItem → FramerState × List SseEvent
  | [] => (s, [])
  | StreamItem.done :: _ => (s, [])
  | StreamItem.noise :: rest => processItems ms s rest
  | StreamItem.chunk c :: rest =>
    let p := processChunk ms s c
    let q := processItems ms p.1 rest
    (q.1, p.2 ++ q.2)

/-- Embeds the whole emitted event sequence of proxyStream (lines 200 to
418): the opening message_start, the loop, the close of the bookkeeping
block, the defaulted final message_delta when no non-empty finish reason
was recorded, and the terminal message_stop. -/
def runFramer (ms : Nat) (model : String) (items : List StreamItem) : List SseEvent :=
  let loopRes := processItems ms initialFramerState items
  let closeRes := closeCurrentBlock loopRes.1
  let tailEvts :=
    if closeRes.1.finishReason = "" then [SseEvent.messageDelta "end_turn"] else []
  SseEvent.messageStart ("msg_" ++ toString ms) model
    :: (loopRes.2 ++ closeRes.2 ++ tailEvts ++ [SseEvent.messageStop])

/-- Content blocks started and not yet stopped after a sequence of emitted
events, in opening order. -/
def openBlocksAfter (evts : List SseEvent) : List Int :=
  evts.foldl
    (fun acc e =>
      match e with
      | SseEvent.blockStartText i => acc ++ [i]
      | SseEvent.blockStartToolUse i _ _ => acc ++ [i]
      | SseEvent.blockStop i => acc.erase i
      | _ => acc)
    []

/-- The content_block_start events of type tool_use in an emitted
sequence. -/
def toolStartEvents (evts : List SseEvent) : List SseEvent :=
  evts.filter (fun e =>
    match e with
    | SseEvent.blockStartToolUse _ _ _ => true
    | _ => false)

/-- How many message_delta events an emitted sequence contains. -/
def countMessageDeltas (evts : List SseEvent) : Nat :=
  evts.countP (fun e =>
    match e with
    | SseEvent.messageDelta _ => true
    | _ => false)

/-- How many processed chunks, before the termination sentinel, carry a
finish reason in their first choice. -/
def observedFinishCount : List StreamItem → Nat
  | [] => 0
  | StreamItem.done :: _ => 0
  | StreamItem.noise :: rest => observedFinishCount rest
  | StreamItem.chunk c :: rest =>
    (match c.choices with
     | ch :: _ =>
       match ch.finishReason with
       | some _ => 1
       | none => 0
     | [] => 0) + observedFinishCount rest

/-- The last finish-reason string carried by a processed chunk before the
termination sentinel, folding over an accumulator that starts at the given
value. -/
def lastFinishAux (acc : String) : List StreamItem → String
  | [] => acc
  | StreamItem.done :: _ => acc
  | StreamItem.noise :: rest => lastFinishAux acc rest
  | StreamItem.chunk c :: rest =>
    match c.choices with
    | [] => lastFinishAux acc rest
    | ch :: _ =>
      match ch.finishReason with
      | some f => lastFinishAux f rest
      | none => lastFinishAux acc rest

/-- The last finish-reason string observed across a stream, the empty
string when none was observed. -/
def lastFinish (items : List StreamItem) : String := lastFinishAux "" items

/-- A stream on which the re-framer lets two content blocks stay open at
once: a tool call at upstream index 0, then text, then a resumed fragment of
tool call 0, then a new tool call at upstream index 1. -/
def c2FailingItems : List StreamItem := [
  StreamItem.chunk ⟨[⟨⟨none, [⟨0, "a", "f", ""⟩]⟩, none⟩]⟩,
  StreamItem.chunk ⟨[⟨⟨some "t", []⟩, none⟩]⟩,
  StreamItem.chunk ⟨[⟨⟨none, [⟨0, "", "", "x"⟩]⟩, none⟩]⟩,
  StreamItem.chunk ⟨[⟨⟨none, [⟨1, "b", "g", ""⟩]⟩, none⟩]⟩ ]

/-- A stream whose text deltas sandwich a tool call: text, a tool-call
fragment, then more text. -/
def c3FailingItems : List StreamItem := [
  StreamItem.chunk ⟨[⟨⟨some "a", []⟩, none⟩]⟩,
  StreamItem.chunk ⟨[⟨⟨none, [⟨0, "i0", "n0", ""⟩]⟩, none⟩]⟩,
  StreamItem.chunk ⟨[⟨⟨some "b", []⟩, none⟩]⟩ ]

/-- A stream whose first fragment for tool index 0 omits the id and whose
second fragment supplies it. -/
def c4CexItems : List StreamItem := [
  StreamItem.chunk ⟨[⟨⟨none, [⟨0, "", "wx", ""⟩]⟩, none⟩]⟩,
  StreamItem.chunk ⟨[⟨⟨none, [⟨0, "call_real", "", "args1"⟩]⟩, none⟩]⟩ ]

/-- Two tool calls at upstream indices 0 and 1 arriving fragment by
fragment, with the id or the function name omitted in some fragments. -/
def c4ScenarioItems : List StreamItem := [
  StreamItem.chunk ⟨[⟨⟨none, [⟨0, "call_a", "", "fragA1"⟩]⟩, none⟩]⟩,
  StreamItem.chunk ⟨[⟨⟨none, [⟨0, "", "alpha", "fragA2"⟩]⟩, none⟩]⟩,
  StreamItem.chunk ⟨[⟨⟨none, [⟨1, "", "beta", "fragB1"⟩]⟩, none⟩]⟩,
  StreamItem.chunk ⟨[⟨⟨none, [⟨1, "call_b", "", ""⟩]⟩, none⟩]⟩ ]

/-- A stream containing only the two text fragments He and llo. -/
def c5TextOnlyItems : List StreamItem := [
  StreamItem.chunk ⟨[⟨⟨some "He", []⟩, none⟩]⟩,
  StreamItem.chunk ⟨[⟨⟨some "llo", []⟩, none⟩]⟩ ]

/-- A stream whose single chunk carries an explicitly empty finish-reason
string. -/
def c6CexItems : List StreamItem := [ StreamItem.chunk ⟨[⟨⟨none, []⟩, some ""⟩]⟩ ]

/-- A user message consisting of one tool_result block whose tool_use_id is
empty. -/
def c7CexBlocks : List AnthropicContentBlock :=
  [ { type := "tool_result", toolUseID := "", content := ⟨"\"x\"", some "x"⟩ } ]

/-- Follows the spec words of claim C7 for the tool-result pass, amended to
require a non-blank tool-use id: one tool-role message per qualifying
tool_result block, in block order, content coerced to a string. -/
def specToolResultMessages (blocks : List AnthropicContentBlock) : List OutMessage :=
  (blocks.filter
      (fun b => decide (b.type = "tool_result" ∧ trimSpace b.toolUseID ≠ ""))).map
    (fun b => OutMessage.toolMsg b.toolUseID (toolResultContentStr b.content))

/-- Follows the spec words of claim C7 for the final user message: empty
string content for zero remaining text or image parts, the bare text for
exactly one text part, and the ordered part sequence otherwise. -/
def specUserMessage (blocks : List AnthropicContentBlock) : OutMessage :=
  match blocks.filterMap partOfBlock with
  | [] => OutMessage.basic "user" (OutContent.str "")
  | [OutPart.text t] => OutMessage.basic "user" (OutContent.str t)
  | ps => OutMessage.basic "user" (OutContent.parts ps)

/-- Follows the spec words of claim C9 for usage accounting: cache_read is
the nested cached-token count or zero when absent, input tokens are prompt
tokens minus cache_read, output tokens are completion tokens, and all three
are zero when usage is absent. -/
def specUsage : Option OpenAIUsage → AnthropicUsage
  | none => ⟨0, 0, 0⟩
  | some u =>
    let cacheRead :=
      match u.promptTokensDetails with
      | some d => d.cachedTokens
      | none => 0
    ⟨u.promptTokens - cacheRead, u.completionTokens, cacheRead⟩

/-- Claim C1: the stop-reason mapping is total and sends stop to end_turn,
length to max_tokens, tool_calls to tool_use, content_filter to
stop_sequence, and every other input, the empty string included, to
end_turn. -/
theorem c1_stop_reason_mapping (finish : String) :
    MapFinishReason "stop" = "end_turn" ∧
    MapFinishReason "length" = "max_tokens" ∧
    MapFinishReason "tool_calls" = "tool_use" ∧
    MapFinishReason "content_filter" = "stop_sequence" ∧
    MapFinishReason "" = "end_turn" ∧
    (finish ≠ "stop" → finish ≠ "length" → finish ≠ "tool_calls" →
      finish ≠ "content_filter" → MapFinishReason finish = "end_turn") := by
  refine ⟨by decide, by decide, by decide, by decide, by decide, ?_⟩
  intro h1 h2 h3 h4
  simp [MapFinishReason, h1, h2, h3, h4]

/-- Witness for claim C1 at the unrecognized input banana. -/
theorem c1_stop_reason_mapping_witness : MapFinishReason "banana" = "end_turn" :=
  (c1_stop_reason_mapping "banana").2.2.2.2.2 (by decide) (by decide) (by decide) (by decide)

/-- Claim C2, evaluated at the failing input: after the first eight emitted
events of the run on c2FailingItems, the blocks started and not yet stopped
are the text block 1 and the tool block 2, so two content blocks are open at
once, violating the claimed invariant. -/
theorem c2_two_blocks_open :
    openBlocksAfter ((runFramer 0 "m" c2FailingItems).take 8) = [1, 2] ∧
    ((runFramer 0 "m" c2FailingItems).take 8).getLast?
      = some (SseEvent.blockStartToolUse 2 "b" "g") := by decide

/-- Claim C3, evaluated at the failing input: on c3FailingItems the second
text fragment b is emitted as a content_block_delta with index minus one
instead of the index 0 that was assigned to the single text block. -/
theorem c3_text_delta_negative_index :
    runFramer 0 "m" c3FailingItems = [
      SseEvent.messageStart "msg_0" "m",
      SseEvent.blockStartText 0,
      SseEvent.blockDeltaText 0 "a",
      SseEvent.blockStop 0,
      SseEvent.blockStartToolUse 1 "i0" "n0",
      SseEvent.blockStop 1,
      SseEvent.blockDeltaText (-1) "b",
      SseEvent.messageDelta "end_turn",
      SseEvent.messageStop] := by decide

/-- Counterexample to claim C4 as stated: on c4CexItems the first non-empty
id seen for upstream index 0 is call_real, yet the only content_block_start
of type tool_use carries the synthesized fallback id call_7_0, not
call_real. -/
theorem c4_counterexample :
    toolStartEvents (runFramer 7 "m" c4CexItems)
      = [SseEvent.blockStartToolUse 0 "call_7_0" "wx"] ∧
    SseEvent.blockStartToolUse 0 "call_7_0" "wx"
      ≠ SseEvent.blockStartToolUse 0 "call_real" "wx" := by decide

/-- Claim C4 as amended: for two tool calls at upstream indices 0 and 1
arriving fragment by fragment with some fragments omitting the id or the
name, each content_block_start carries the id and name of that tool call's
first fragment, with synthesized fallbacks where the first fragment omits
them and with later-supplied ids and names ignored, and every argument
fragment is emitted as an input_json_delta carrying the content-block index
assigned to its upstream index, in arrival order. -/
theorem c4_amended_two_tool_calls :
    runFramer 7 "m" c4ScenarioItems = [
      SseEvent.messageStart "msg_7" "m",
      SseEvent.blockStartToolUse 0 "call_a" "tool_0",
      SseEvent.blockDeltaJson 0 "fragA1",
      SseEvent.blockDeltaJson 0 "fragA2",
      SseEvent.blockStop 0,
      SseEvent.blockStartToolUse 1 "call_7_1" "beta",
      SseEvent.blockDeltaJson 1 "fragB1",
      SseEvent.blockStop 1,
      SseEvent.messageDelta "end_turn",
      SseEvent.messageStop] := by decide

/-- Claim C5: on a stream containing only the text fragments He and llo the
re-framer emits message_start, exactly one content_block_start of type text
at index 0, one text delta per fragment with that exact text in arrival
order, one content_block_stop, one message_delta and a terminal
message_stop. -/
theorem c5_text_only_stream (ms : Nat) (model : String) :
    runFramer ms model c5TextOnlyItems = [
      SseEvent.messageStart ("msg_" ++ toString ms) model,
      SseEvent.blockStartText 0,
      SseEvent.blockDeltaText 0 "He",
      SseEvent.blockDeltaText 0 "llo",
      SseEvent.blockStop 0,
      SseEvent.messageDelta "end_turn",
      SseEvent.messageStop] := by rfl

/-- Counterexample to claim C6 as stated: on c6CexItems a finish reason is
observed in a chunk, which by the claim should suppress the final defaulted
message_delta, yet the run emits two message_delta events, the second being
the post-exhaustion default. -/
theorem c6_counterexample :
    observedFinishCount c6CexItems = 1 ∧
    countMessageDeltas (runFramer 0 "m" c6CexItems) = 2 ∧
    runFramer 0 "m" c6CexItems = [
      SseEvent.messageStart "msg_0" "m",
      SseEvent.messageDelta "end_turn",
      SseEvent.messageDelta "end_turn",
      SseEvent.messageStop] := by decide

/-- Closing the current block never touches the recorded finish reason. -/
theorem closeCurrentBlock_finishReason (s : FramerState) :
    (closeCurrentBlock s).1.finishReason = s.finishReason := by
  unfold closeCurrentBlock; split <;> rfl

/-- The events emitted by closing the current block: one content_block_stop
for the bookkeeping block when one is open, nothing otherwise. -/
theorem closeCurrentBlock_snd (s : FramerState) :
    (closeCurrentBlock s).2 =
      if s.currentContentBlockIndex >= 0
      then [SseEvent.blockStop s.currentContentBlockIndex] else [] := by
  unfold closeCurrentBlock; split <;> simp_all

/-- Processing a tool-call fragment never touches the recorded finish
reason. -/
theorem processToolFragment_finishReason (ms : Nat) (s : FramerState) (tc : ToolCallFragment) :
    (processToolFragment ms s tc).1.finishReason = s.finishReason := by
  unfold processToolFragment
  cases h : s.toolStates.lookup (if tc.index < 0 then 0 else tc.index) <;>
    simp [h, closeCurrentBlock_finishReason]

/-- Processing a fragment list never touches the recorded finish reason. -/
theorem processToolFragments_finishReason (ms : Nat) :
    ∀ (l : List ToolCallFragment) (s : FramerState),
      (processToolFragments ms s l).1.finishReason = s.finishReason := by
  intro l
  induction l with
  | nil => intro s; rfl
  | cons tc rest ih =>
    intro s
    simp only [processToolFragments]
    rw [ih, processToolFragment_finishReason]

/-- Processing a text delta never touches the recorded finish reason. -/
theorem processText_finishReason (s : FramerState) (txt : String) :
    (processText s txt).1.finishReason = s.finishReason := by
  unfold processText
  dsimp only
  split <;> split <;> simp [closeCurrentBlock_finishReason]

/-- Processing one chunk leaves the recorded finish reason unchanged unless
the chunk's first choice carries one, in which case it overwrites it. -/
theorem processChunk_finishReason (ms : Nat) (s : FramerState) (c : StreamChunk) :
    (processChunk ms s c).1.finishReason =
      (match c.choices with
       | [] => s.finishReason
       | ch :: _ =>
         match ch.finishReason with
         | some f => f
         | none => s.finishReason) := by
  unfold processChunk
  cases hc : c.choices with
  | nil => rfl
  | cons ch rest =>
    cases hf : ch.finishReason with
    | some f => simp [hf]
    | none =>
      cases ht : ch.delta.content with
      | some t =>
        by_cases h : t = "" <;>
          simp [hf, ht, h, processText_finishReason, processToolFragments_finishReason]
      | none => simp [hf, ht, processToolFragments_finishReason]

/-- After the loop the recorded finish reason is the last one observed in
the processed chunks, starting from the incoming state's value. -/
theorem processItems_finishReason (ms : Nat) :
    ∀ (items : List StreamItem) (s : FramerState),
      (processItems ms s items).1.finishReason = lastFinishAux s.finishReason items := by
  intro items
  induction items with
  | nil => intro s; rfl
  | cons it rest ih =>
    intro s
    cases it with
    | done => rfl
    | noise => simp only [processItems, lastFinishAux]; exact ih s
    | chunk c =>
      simp only [processItems, lastFinishAux]
      rw [ih, processChunk_finishReason]
      cases hc : c.choices with
      | nil => rfl
      | cons ch r2 =>
        cases hf : ch.finishReason <;> simp [hf]

/-- Claim C6 as amended: after the upstream source is exhausted, normally or
via the termination sentinel, the re-framer emits a content_block_stop for
the block its bookkeeping holds open if any, then one final message_delta
defaulting the stop reason to end_turn if and only if the last finish-reason
string observed across the whole stream is empty, which covers both the case
where none was observed and the case where the last observed one was the
empty string, and always ends the run with a terminal message_stop. -/
theorem c6_closing_sequence (ms : Nat) (model : String) (items : List StreamItem) :
    runFramer ms model items
      = SseEvent.messageStart ("msg_" ++ toString ms) model
          :: ((processItems ms initialFramerState items).2
            ++ (if (processItems ms initialFramerState items).1.currentContentBlockIndex >= 0
                then [SseEvent.blockStop (processItems ms initialFramerState items).1.currentContentBlockIndex]
                else [])
            ++ (if lastFinish items = "" then [SseEvent.messageDelta "end_turn"] else [])
            ++ [SseEvent.messageStop])
    ∧ (runFramer ms model items).getLast? = some SseEvent.messageStop := by
  have hfin : (closeCurrentBlock (processItems ms initialFramerState items).1).1.finishReason
      = lastFinish items := by
    rw [closeCurrentBlock_finishReason, processItems_finishReason]
    rfl
  have h1 : runFramer ms model items
      = SseEvent.messageStart ("msg_" ++ toString ms) model
          :: ((processItems ms initialFramerState items).2
            ++ (if (processItems ms initialFramerState items).1.currentContentBlockIndex >= 0
                then [SseEvent.blockStop (processItems ms initialFramerState items).1.currentContentBlockIndex]
                else [])
            ++ (if lastFinish items = "" then [SseEvent.messageDelta "end_turn"] else [])
            ++ [SseEvent.messageStop]) := by
    unfold runFramer
    dsimp only
    rw [closeCurrentBlock_snd, hfin]
  refine ⟨h1, ?_⟩
  rw [h1, ← List.cons_append, ← List.cons_append, ← List.cons_append]
  exact List.getLast?_concat _

/-- The first pass over user blocks agrees with the spec-side filter-and-map
description of the tool-result messages. -/
theorem userToolResultMsgs_eq_spec (blocks : List AnthropicContentBlock) :
    userToolResultMsgs blocks = specToolResultMessages blocks := by
  induction blocks with
  | nil => rfl
  | cons b rest ih =>
    by_cases h : b.type = "tool_result" ∧ trimSpace b.toolUseID ≠ "" <;>
      simp [userToolResultMsgs, specToolResultMessages, h] <;>
      simpa [specToolResultMessages] using ih

/-- Claim C7 as amended: for every user block sequence the converter first
emits one tool-role message per tool_result block whose tool-use id is
non-blank after trimming, carrying the id and the result content coerced to
a string, in block order, and then exactly one user message whose content is
the empty string for zero remaining text or image parts, the bare text for
exactly one text part, and the ordered typed part sequence otherwise. -/
theorem c7_amended (blocks : List AnthropicContentBlock) :
    convertAnthropicUserBlocksToOpenAIMessages blocks
      = specToolResultMessages blocks ++ [specUserMessage blocks] := by
  unfold convertAnthropicUserBlocksToOpenAIMessages specUserMessage
  dsimp only
  rw [userToolResultMsgs_eq_spec]
  cases hp : blocks.filterMap partOfBlock with
  | nil => rfl
  | cons p tail =>
    cases tail with
    | nil => cases p <;> rfl
    | cons q t2 => cases p <;> rfl

/-- Counterexample to claim C7 as stated: a user message holding exactly one
tool_result block, whose tool_use_id is empty, produces no tool-role
message at all, only the single user message. -/
theorem c7_counterexample :
    convertAnthropicUserBlocksToOpenAIMessages c7CexBlocks
      = [OutMessage.basic "user" (OutContent.str "")] ∧
    (c7CexBlocks.countP (fun b => b.type == "tool_result")) = 1 := by decide

/-- Claim C9: the response conversion uses only the first choice, a response
with no choices yields an empty content sequence, and the usage triple
follows the spec formula, with the conversion total by construction. -/
theorem c9_response_conversion (resp : OpenAIChatCompletionResponse) :
    ConvertOpenAIToAnthropic resp
      = ConvertOpenAIToAnthropic { resp with choices := resp.choices.take 1 }
    ∧ (ConvertOpenAIToAnthropic { resp with choices := [] }).content = []
    ∧ (ConvertOpenAIToAnthropic resp).usage = specUsage resp.usage := by
  refine ⟨?_, ?_, ?_⟩
  · cases h : resp.choices with
    | nil => simp [ConvertOpenAIToAnthropic, h]
    | cons c cs => simp [ConvertOpenAIToAnthropic, h]
  · simp [ConvertOpenAIToAnthropic]
  · cases hu : resp.usage with
    | none => simp [ConvertOpenAIToAnthropic, specUsage, hu]
    | some u =>
      cases hd : u.promptTokensDetails with
      | none => simp [ConvertOpenAIToAnthropic, specUsage, hu, hd]
      | some d => simp [ConvertOpenAIToAnthropic, specUsage, hu, hd]

/-- Dropping a blank-role message from the message list leaves the
per-message conversion loop's result unchanged, whatever its content. -/
theorem convertMessages_blank_dropped :
    ∀ (ms1 ms2 : List AnthropicMsg) (m : AnthropicMsg), trimSpace m.role = "" →
      convertMessages (ms1 ++ m :: ms2) = convertMessages (ms1 ++ ms2) := by
  intro ms1
  induction ms1 with
  | nil =>
    intro ms2 m h
    simp [convertMessages, h]
  | cons a rest ih =>
    intro ms2 m h
    have ih2 : convertMessages (List.append rest (m :: ms2))
        = convertMessages (List.append rest ms2) := ih ms2 m h
    simp only [List.cons_append, convertMessages, ih2]

/-- Claim C10: a message whose role is empty after trimming whitespace is
silently dropped by the request converter, which neither emits an outbound
message for it nor fails, even when its content parses neither as a string
nor as content blocks. -/
theorem c10_blank_role_dropped (req : AnthropicMessageRequest) (m : AnthropicMsg)
    (ms1 ms2 : List AnthropicMsg) (h : trimSpace m.role = "") :
    ConvertAnthropicToOpenAI { req with messages := ms1 ++ m :: ms2 }
      = ConvertAnthropicToOpenAI { req with messages := ms1 ++ ms2 } := by
  unfold ConvertAnthropicToOpenAI
  dsimp only
  rw [convertMessages_blank_dropped ms1 ms2 m h]

/-- Witness for claim C10: a whitespace-role message with malformed content
between two otherwise converted requests. -/
theorem c10_blank_role_dropped_witness :
    ConvertAnthropicToOpenAI
        { model := "m",
          messages := [⟨"user", MsgContent.str "hi"⟩, ⟨" ", MsgContent.malformed "x"⟩] }
      = ConvertAnthropicToOpenAI
        { model := "m", messages := [⟨"user", MsgContent.str "hi"⟩] } :=
  c10_blank_role_dropped { model := "m", messages := [] }
    ⟨" ", MsgContent.malformed "x"⟩ [⟨"user", MsgContent.str "hi"⟩] [] (by decide)

/-- A synthesized base64 data URI is never the empty string. -/
theorem dataUri_ne_empty (mt data : String) :
    ("data:" ++ mt ++ ";base64," ++ data) ≠ "" := by
  intro h
  have hl := congrArg String.length h
  simp [String.length_append] at hl
  exact absurd hl.1.2 (by decide)

/-- Claim C8 as amended: a base64-tagged image source with non-empty media
type, non-empty payload and valid base64 yields an image_url part whose url
is the data URI built from the media type and the original data; invalid
base64 yields no part; a url-tagged source with a non-empty url passes the
url through; any other source type yields no part. -/
theorem c8_amended (mt data u : String) :
    (mt ≠ "" → data ≠ "" → isValidBase64 data = true →
      partOfBlock { type := "image", source := some ⟨"base64", mt, data, u⟩ }
        = some (OutPart.imageUrl ("data:" ++ mt ++ ";base64," ++ data)))
    ∧ (isValidBase64 data = false →
      partOfBlock { type := "image", source := some ⟨"base64", mt, data, u⟩ } = none)
    ∧ (u ≠ "" →
      partOfBlock { type := "image", source := some ⟨"url", mt, data, u⟩ }
        = some (OutPart.imageUrl u))
    ∧ (∀ st, st ≠ "base64" → st ≠ "url" →
      partOfBlock { type := "image", source := some ⟨st, mt, data, u⟩ } = none) := by
  refine ⟨?_, ?_, ?_, ?_⟩
  · intro hmt hdata hvalid
    simp [partOfBlock, imageUrlOf, hmt, hdata, hvalid, dataUri_ne_empty]
  · intro hvalid
    by_cases hmt : mt = "" <;> by_cases hdata : data = "" <;>
      simp [partOfBlock, imageUrlOf, hmt, hdata, hvalid]
  · intro hu
    simp [partOfBlock, imageUrlOf, hu]
  · intro st h1 h2
    simp [partOfBlock, imageUrlOf, h1, h2]

/-- Witness for claim C8 at concrete image sources: a valid base64 payload,
an invalid one, a url source, and an unrecognized source type. -/
theorem c8_amended_witness :
    partOfBlock { type := "image", source := some ⟨"base64", "image/png", "aGVsbG8=", ""⟩ }
      = some (OutPart.imageUrl ("data:" ++ "image/png" ++ ";base64," ++ "aGVsbG8=")) ∧
    partOfBlock { type := "image", source := some ⟨"base64", "image/png", "%%%", ""⟩ } = none ∧
    partOfBlock { type := "image", source := some ⟨"url", "", "", "https://x"⟩ }
      = some (OutPart.imageUrl "https://x") ∧
    partOfBlock { type := "image", source := some ⟨"file", "", "", ""⟩ } = none :=
  ⟨(c8_amended "image/png" "aGVsbG8=" "").1 (by decide) (by decide) (by decide),
   (c8_amended "image/png" "%%%" "").2.1 (by decide),
   (c8_amended "" "" "https://x").2.2.1 (by decide),
   (c8_amended "" "" "").2.2.2 "file" (by decide) (by decide)⟩

/-- Counterexample to claim C8 as stated: the empty payload is valid base64
and the media type is non-empty, yet the block is dropped instead of
yielding the url data:image/png;base64, as the claim requires. -/
theorem c8_counterexample :
    isValidBase64 "" = true ∧
    partOfBlock { type := "image", source := some ⟨"base64", "image/png", "", ""⟩ } = none := by
  decide

end ClaudeNvidiaProxy
